import Mathlib

/-!
Verification of the blue/green deployment state machine and action planner of
er-aws-rds.  The Python sources under `hooks/utils/` are shallowly embedded:

* `hooks/utils/semantic.py`      → `Semver`, `parse_semver`
* `hooks/utils/models.py`        → `State`, `ActionType`, `BaseAction`,
                                   `CreateBlueGreenDeploymentParams` and its
                                   serialized (`model_dump`) form
* `hooks/utils/blue_green_deployment_model.py`
                                 → `BlueGreenDeploymentModel`, the pydantic
                                   validator chain `mkModel`, the state graph
                                   and `plan_actions`
* `hooks/utils/blue_green_deployment_manager.py`
                                 → `BlueGreenDeploymentManager.run`, with the
                                   cloud API as an explicit record of read
                                   functions and an instrumented call trace
* `hooks/utils/wait.py`          → `wait_for`, with wall-clock time idealized
                                   as poll counts (elapsed after k sleeps is
                                   k * interval) and divergence modelled by fuel

Python exceptions become `Except` with structured error values; pydantic
model validators run in definition order and the first failure aborts, which
is exactly `Except` bind.
-/

/-- Parsed semantic version, as produced by `semver.Version.parse` with
`optional_minor_and_patch=True` (prerelease/build parts never occur in the
version strings this program handles). -/
structure Semver where
  major : Nat
  minor : Nat
  patch : Nat
deriving DecidableEq, Repr

/-- Lexicographic `>=` on (major, minor, patch), the only comparison the
source uses on parsed versions. -/
def Semver.ge (a b : Semver) : Bool :=
  b.major < a.major
    || (b.major == a.major
      && (b.minor < a.minor || (b.minor == a.minor && b.patch ≤ a.patch)))

/-- Split a character list into the dot-separated groups of a version
string. -/
def splitOnDot : List Char → List (List Char)
  | [] => [[]]
  | c :: rest =>
      match splitOnDot rest with
      | [] => if c = '.' then [[], [c]] else [[c]]
      | g :: gs => if c = '.' then [] :: g :: gs else (c :: g) :: gs

/-- Parse a nonempty all-digit character group as a natural number. -/
def parseNatDigits (cs : List Char) : Option Nat :=
  if cs ≠ [] ∧ cs.all Char.isDigit then
    some (cs.foldl (fun acc c => acc * 10 + (c.toNat - 48)) 0)
  else none

/-- Embeds `hooks/utils/semantic.py::parse_semver`: split on dots, require one
to three numeric components, missing minor/patch default to 0.  `none` models
the `ValueError` raised by `semver.Version.parse` on malformed input. -/
def parse_semver (s : String) : Option Semver :=
  match (splitOnDot s.toList).map parseNatDigits with
  | [some ma] => some ⟨ma, 0, 0⟩
  | [some ma, some mi] => some ⟨ma, mi, 0⟩
  | [some ma, some mi, some pa] => some ⟨ma, mi, pa⟩
  | _ => none

/-- Attached parameter group entry of a DB instance snapshot
(`DBParameterGroupStatusTypeDef`). -/
structure DBParameterGroupStatus where
  DBParameterGroupName : String
  ParameterApplyStatus : String
deriving DecidableEq, Repr

/-- DB instance snapshot (`DBInstanceTypeDef`), restricted to the keys the
embedded code reads. -/
structure DBInstanceTypeDef where
  DBInstanceIdentifier : String
  DBInstanceArn : String
  DBInstanceStatus : String
  DeletionProtection : Bool
  BackupRetentionPeriod : Int
  Engine : String
  EngineVersion : String
  DBInstanceClass : String
  StorageType : String
  StorageThroughput : Int
  AllocatedStorage : Int
  Iops : Int
  DBParameterGroups : List DBParameterGroupStatus
deriving DecidableEq, Repr

/-- Target parameter group snapshot (`DBParameterGroupTypeDef`); only its
presence is inspected. -/
structure DBParameterGroupTypeDef where
  DBParameterGroupName : String
deriving DecidableEq, Repr

/-- One member pair of a deployment's `SwitchoverDetails`. -/
structure SwitchoverDetail where
  SourceMember : Option String
  TargetMember : Option String
deriving DecidableEq, Repr

/-- Blue/green deployment snapshot (`BlueGreenDeploymentTypeDef`). -/
structure BlueGreenDeploymentTypeDef where
  BlueGreenDeploymentIdentifier : String
  Status : String
  SwitchoverDetails : List SwitchoverDetail
deriving DecidableEq, Repr

/-- Valid upgrade target entry (`UpgradeTargetTypeDef`). -/
structure UpgradeTargetTypeDef where
  EngineVersion : String
  IsMajorVersionUpgrade : Bool
deriving DecidableEq, Repr

/-- Configuration parameter group reference (`er_aws_rds/input.py::ParameterGroup`);
`family` is required, `name` optional. -/
structure ParameterGroup where
  family : String := ""
  name : Option String := none
deriving DecidableEq, Repr

/-- Sparse target override (`er_aws_rds/input.py::BlueGreenDeploymentTarget`);
unset fields mean "keep the current value". -/
structure BlueGreenDeploymentTarget where
  allocated_storage : Option Int := none
  engine_version : Option String := none
  instance_class : Option String := none
  iops : Option Int := none
  parameter_group : Option ParameterGroup := none
  storage_throughput : Option Int := none
  storage_type : Option String := none
deriving DecidableEq, Repr

/-- Blue/green deployment configuration
(`er_aws_rds/input.py::BlueGreenDeployment`). -/
structure BlueGreenDeployment where
  enabled : Bool
  switchover : Bool
  delete : Bool
  target : Option BlueGreenDeploymentTarget := none
deriving DecidableEq, Repr

/-- Closed state enum (`hooks/utils/models.py::State`). -/
inductive State where
  | INIT
  | NOT_ENABLED
  | PROVISIONING
  | AVAILABLE
  | SWITCHOVER_IN_PROGRESS
  | SWITCHOVER_COMPLETED
  | DELETING_SOURCE_DB_INSTANCES
  | SOURCE_DB_INSTANCES_DELETED
  | DELETING
  | NO_OP
deriving DecidableEq, Repr

/-- Closed action-kind enum (`hooks/utils/models.py::ActionType`). -/
inductive ActionType where
  | NO_OP
  | CREATE
  | WAIT_FOR_AVAILABLE
  | SWITCHOVER
  | WAIT_FOR_SWITCHOVER_COMPLETED
  | DELETE_SOURCE_DB_INSTANCE
  | WAIT_FOR_SOURCE_DB_INSTANCES_DELETED
  | DELETE_WITHOUT_SWITCHOVER
  | DELETE
  | WAIT_FOR_DELETED
deriving DecidableEq, Repr

/-- Create-deployment request parameters
(`hooks/utils/models.py::CreateBlueGreenDeploymentParams`); tags are kept as an
ordered association list, matching Python dict iteration order. -/
structure CreateBlueGreenDeploymentParams where
  name : String
  source_arn : String
  allocated_storage : Option Int := none
  engine_version : Option String := none
  instance_class : Option String := none
  iops : Option Int := none
  parameter_group_name : Option String := none
  storage_throughput : Option Int := none
  storage_type : Option String := none
  tags : Option (List (String × String)) := none
deriving DecidableEq, Repr

/-- Planned action (`hooks/utils/models.py::BaseAction` and its subclasses);
only the `create` kind carries a payload. -/
structure BaseAction where
  type : ActionType
  next_state : State
  payload : Option CreateBlueGreenDeploymentParams := none
deriving DecidableEq, Repr

/-- Structured rendering of the distinct `ValueError` / `KeyError` /
`AssertionError` raise sites of model construction in
`blue_green_deployment_model.py`. -/
inductive ModelError where
  | unexpectedStatus (status : String)
  | dbInstanceNotFound (identifier : String)
  | targetParameterGroupNotFound (name : String)
  | deletionProtectionMustBeDisabled
  | backupRetentionPeriodMustBePositive
  | invalidTargetEngineVersion (version : String) (validVersions : List String)
  | unsupportedEngineVersion (engine : String) (version : String)
  | unsupportedEngine (engine : String)
  | sourceParameterGroupNotInSync (groups : List DBParameterGroupStatus)
  | semverParseError (version : String)
  | keyError (key : String)
  | assertionFailed
deriving DecidableEq, Repr

/-- The deployment model aggregate
(`blue_green_deployment_model.py::BlueGreenDeploymentModel`): the constructor
keyword arguments are exactly these fields; `mkModel` below runs the pydantic
validator chain over a candidate value. -/
structure BlueGreenDeploymentModel where
  state : State
  db_instance_identifier : String
  config : BlueGreenDeployment
  db_instance : Option DBInstanceTypeDef := none
  target_db_parameter_group : Option DBParameterGroupTypeDef := none
  blue_green_deployment : Option BlueGreenDeploymentTypeDef := none
  source_db_instances : List DBInstanceTypeDef := []
  target_db_instances : List DBInstanceTypeDef := []
  tags : Option (List (String × String)) := none
  valid_upgrade_targets : List (String × UpgradeTargetTypeDef) := []
deriving DecidableEq, Repr

/-- Embeds `BlueGreenDeploymentModel.is_blue_green_deployment_available`. -/
def BlueGreenDeploymentModel.is_blue_green_deployment_available
    (m : BlueGreenDeploymentModel) : Bool :=
  match m.blue_green_deployment with
  | none => false
  | some bg =>
      bg.Status == "AVAILABLE"
        && m.target_db_instances.all fun db => db.DBInstanceStatus == "available"

/-- Embeds the state computation of the `_init_state` validator: derive the
lifecycle state from the deployment snapshot and member statuses. -/
def BlueGreenDeploymentModel.compute_initial_state
    (m : BlueGreenDeploymentModel) : Except ModelError State :=
  match m.blue_green_deployment with
  | none => .ok State.INIT
  | some bg =>
      if bg.Status == "PROVISIONING" then .ok State.PROVISIONING
      else if bg.Status == "AVAILABLE" then
        .ok (if m.is_blue_green_deployment_available then State.AVAILABLE
          else State.PROVISIONING)
      else if bg.Status == "SWITCHOVER_IN_PROGRESS" then
        .ok State.SWITCHOVER_IN_PROGRESS
      else if bg.Status == "SWITCHOVER_COMPLETED" then
        .ok (if m.source_db_instances.isEmpty then
            State.SOURCE_DB_INSTANCES_DELETED
          else if m.source_db_instances.any
              (fun db => db.DBInstanceStatus == "deleting") then
            State.DELETING_SOURCE_DB_INSTANCES
          else State.SWITCHOVER_COMPLETED)
      else if bg.Status == "DELETING" then .ok State.DELETING
      else .error (.unexpectedStatus bg.Status)

/-- Embeds the `_init_state` model validator: overwrite `state` with the
derived state (or fail on an unexpected deployment status). -/
def BlueGreenDeploymentModel.init_state
    (m : BlueGreenDeploymentModel) : Except ModelError BlueGreenDeploymentModel :=
  (m.compute_initial_state).map fun s => { m with state := s }

/-- Embeds `_validate_db_instance_exist`. -/
def BlueGreenDeploymentModel.validate_db_instance_exist
    (m : BlueGreenDeploymentModel) : Except ModelError BlueGreenDeploymentModel :=
  match m.db_instance with
  | none => .error (.dbInstanceNotFound m.db_instance_identifier)
  | some _ => .ok m

/-- Embeds `_validate_target_parameter_group`. -/
def BlueGreenDeploymentModel.validate_target_parameter_group
    (m : BlueGreenDeploymentModel) : Except ModelError BlueGreenDeploymentModel :=
  match m.config.target.bind (fun t => t.parameter_group.bind fun pg => pg.name) with
  | some parameter_group_name =>
      if m.target_db_parameter_group.isNone then
        .error (.targetParameterGroupNotFound parameter_group_name)
      else .ok m
  | none => .ok m

/-- Embeds `_validate_deletion_protection`. -/
def BlueGreenDeploymentModel.validate_deletion_protection
    (m : BlueGreenDeploymentModel) : Except ModelError BlueGreenDeploymentModel :=
  match m.db_instance with
  | some db => if db.DeletionProtection then .error .deletionProtectionMustBeDisabled else .ok m
  | none => .ok m

/-- Embeds `_validate_backup_retention_period`. -/
def BlueGreenDeploymentModel.validate_backup_retention_period
    (m : BlueGreenDeploymentModel) : Except ModelError BlueGreenDeploymentModel :=
  match m.db_instance with
  | some db =>
      if db.BackupRetentionPeriod ≤ 0 then .error .backupRetentionPeriodMustBePositive
      else .ok m
  | none => .ok m

/-- Embeds `_get_target_engine_version`: the explicit target override or, if
unset, the current instance version (the `assert self.db_instance` becomes a
structured failure). -/
def BlueGreenDeploymentModel.get_target_engine_version
    (m : BlueGreenDeploymentModel) : Except ModelError String :=
  match m.config.target.bind (fun t => t.engine_version) with
  | some v => .ok v
  | none =>
      match m.db_instance with
      | none => .error .assertionFailed
      | some db => .ok db.EngineVersion

/-- Embeds `_validate_version_upgrade`: the resolved target version must be a
key of the valid-upgrade-target mapping. -/
def BlueGreenDeploymentModel.validate_version_upgrade
    (m : BlueGreenDeploymentModel) : Except ModelError BlueGreenDeploymentModel := do
  let target_engine_version ← m.get_target_engine_version
  if (m.valid_upgrade_targets.lookup target_engine_version).isSome then .ok m
  else .error (.invalidTargetEngineVersion target_engine_version
    (m.valid_upgrade_targets.map Prod.fst))

/-- Embeds `_is_mysql_version_supported`: major.minor must exactly match one
of the supported versions; `none` models a parse failure. -/
def is_mysql_version_supported (version : String) : Option Bool :=
  (parse_semver version).map fun target_version =>
    (["5.7", "8.0", "8.4"].filterMap parse_semver).any fun v =>
      target_version.major == v.major && target_version.minor == v.minor

/-- Embeds `_is_postgres_version_supported`: anything at or above the last
listed minimum passes outright, otherwise the major must be listed with minor
at or above the published minimum; `none` models a parse failure. -/
def is_postgres_version_supported (version : String) : Option Bool :=
  (parse_semver version).map fun target_version =>
    let min_supported_versions :=
      ["11.21", "12.16", "13.12", "14.9", "15.4", "16.1"].filterMap parse_semver
    if target_version.ge (min_supported_versions.getLastD ⟨0, 0, 0⟩) then true
    else min_supported_versions.any fun v =>
      target_version.major == v.major && v.minor ≤ target_version.minor

/-- Embeds `_validate_supported_engine_version`: postgres checks the current
version only for major-version upgrades, mysql checks it unconditionally, any
other engine is rejected. -/
def BlueGreenDeploymentModel.validate_supported_engine_version
    (m : BlueGreenDeploymentModel) : Except ModelError BlueGreenDeploymentModel := do
  let target_engine_version ← m.get_target_engine_version
  match m.valid_upgrade_targets.lookup target_engine_version with
  | none => .error (.keyError target_engine_version)
  | some upgrade_target =>
      match m.db_instance with
      | none => .error .assertionFailed
      | some db =>
          if db.Engine == "postgres" then
            if upgrade_target.IsMajorVersionUpgrade then
              match is_postgres_version_supported db.EngineVersion with
              | none => .error (.semverParseError db.EngineVersion)
              | some supported =>
                  if supported then .ok m
                  else .error (.unsupportedEngineVersion "postgres" db.EngineVersion)
            else .ok m
          else if db.Engine == "mysql" then
            match is_mysql_version_supported db.EngineVersion with
            | none => .error (.semverParseError db.EngineVersion)
            | some supported =>
                if supported then .ok m
                else .error (.unsupportedEngineVersion "mysql" db.EngineVersion)
          else .error (.unsupportedEngine db.Engine)

/-- Embeds `_validate_source_parameter_group_status`. -/
def BlueGreenDeploymentModel.validate_source_parameter_group_status
    (m : BlueGreenDeploymentModel) : Except ModelError BlueGreenDeploymentModel :=
  match m.db_instance with
  | none => .error .assertionFailed
  | some db =>
      let invalid_parameter_groups :=
        db.DBParameterGroups.filter fun pg => pg.ParameterApplyStatus != "in-sync"
      if invalid_parameter_groups.isEmpty then .ok m
      else .error (.sourceParameterGroupNotInSync invalid_parameter_groups)

/-- Model construction: the pydantic `mode="after"` validators run in
definition order over the constructor arguments, the first raise aborting —
exactly the `Except` bind chain. -/
def mkModel (m : BlueGreenDeploymentModel) : Except ModelError BlueGreenDeploymentModel :=
  m.init_state
    >>= BlueGreenDeploymentModel.validate_db_instance_exist
    >>= BlueGreenDeploymentModel.validate_target_parameter_group
    >>= BlueGreenDeploymentModel.validate_deletion_protection
    >>= BlueGreenDeploymentModel.validate_backup_retention_period
    >>= BlueGreenDeploymentModel.validate_version_upgrade
    >>= BlueGreenDeploymentModel.validate_supported_engine_version
    >>= BlueGreenDeploymentModel.validate_source_parameter_group_status

/-- Structured rendering of the failures that can occur while planning:
the defensive invalid-transition `ValueError` of `plan_actions`, a missing
state-graph entry (`KeyError`), a failed `assert`, the `IndexError` of
`_no_changes` on an instance with no attached parameter groups, and fuel
exhaustion of the embedded while-loop. -/
inductive PlanError where
  | invalidTransition (next_state : State) (state : State)
  | missingStateEntry (state : State)
  | assertionFailed
  | indexError
  | fuelExhausted
deriving DecidableEq, Repr

/-- Compare an explicitly-set desired value with the live one; an unset field
never causes a difference (the `if value is not None` filter of
`_no_changes`). -/
def unchanged {α : Type} [BEq α] (desired : Option α) (current : α) : Bool :=
  match desired with
  | none => true
  | some v => v == current

/-- Embeds `_no_changes`: every explicitly-set target field must equal the
corresponding live instance field (the parameter-group name is compared with
the first attached parameter group's name, as `DBParameterGroups[0]`). -/
def BlueGreenDeploymentModel.no_changes
    (m : BlueGreenDeploymentModel) : Except PlanError Bool :=
  let target := m.config.target.getD {}
  let parameter_group_name := target.parameter_group.bind fun pg => pg.name
  match m.db_instance with
  | none => .error .assertionFailed
  | some db =>
      match db.DBParameterGroups with
      | [] => .error .indexError
      | pg0 :: _ =>
          .ok (unchanged parameter_group_name pg0.DBParameterGroupName
            && unchanged target.iops db.Iops
            && unchanged target.engine_version db.EngineVersion
            && unchanged target.instance_class db.DBInstanceClass
            && unchanged target.storage_throughput db.StorageThroughput
            && unchanged target.storage_type db.StorageType
            && unchanged target.allocated_storage db.AllocatedStorage)

/-- Embeds `_route_init`: stop (no-op) on a cleanup-only or unchanged request,
otherwise emit the create action with the sparse payload; the boolean
condition keeps Python's short-circuit order (`_no_changes` is only evaluated
when `delete` is set and `switchover` is set). -/
def BlueGreenDeploymentModel.route_init
    (m : BlueGreenDeploymentModel) : Except PlanError (Option BaseAction) := do
  let target := m.config.target.getD {}
  let parameter_group_name := target.parameter_group.bind fun pg => pg.name
  let noop_condition ←
    if m.config.delete then
      if !m.config.switchover then pure true else m.no_changes
    else pure false
  if noop_condition then
    pure (some { type := ActionType.NO_OP, next_state := State.NO_OP })
  else
    match m.db_instance with
    | none => .error .assertionFailed
    | some db =>
        pure (some {
          type := ActionType.CREATE,
          next_state := State.PROVISIONING,
          payload := some {
            name := m.db_instance_identifier,
            source_arn := db.DBInstanceArn,
            allocated_storage := target.allocated_storage,
            engine_version := target.engine_version,
            instance_class := target.instance_class,
            iops := target.iops,
            parameter_group_name := parameter_group_name,
            storage_throughput := target.storage_throughput,
            storage_type := target.storage_type,
            tags := m.tags } })

/-- Embeds `_route_provisioning`. -/
def route_provisioning : Except PlanError (Option BaseAction) :=
  .ok (some { type := ActionType.WAIT_FOR_AVAILABLE, next_state := State.AVAILABLE })

/-- Embeds `_route_available`. -/
def BlueGreenDeploymentModel.route_available
    (m : BlueGreenDeploymentModel) : Except PlanError (Option BaseAction) :=
  if m.config.switchover then
    .ok (some { type := ActionType.SWITCHOVER, next_state := State.SWITCHOVER_IN_PROGRESS })
  else if m.config.delete then
    .ok (some { type := ActionType.DELETE_WITHOUT_SWITCHOVER, next_state := State.DELETING })
  else .ok none

/-- Embeds `_route_switchover_in_progress`. -/
def route_switchover_in_progress : Except PlanError (Option BaseAction) :=
  .ok (some
    { type := ActionType.WAIT_FOR_SWITCHOVER_COMPLETED
      next_state := State.SWITCHOVER_COMPLETED })

/-- Embeds `_route_switchover_completed`. -/
def BlueGreenDeploymentModel.route_switchover_completed
    (m : BlueGreenDeploymentModel) : Except PlanError (Option BaseAction) :=
  if m.config.delete then
    .ok (some
      { type := ActionType.DELETE_SOURCE_DB_INSTANCE
        next_state := State.DELETING_SOURCE_DB_INSTANCES })
  else .ok none

/-- Embeds `_route_deleting_source_db_instances`. -/
def route_deleting_source_db_instances : Except PlanError (Option BaseAction) :=
  .ok (some
    { type := ActionType.WAIT_FOR_SOURCE_DB_INSTANCES_DELETED
      next_state := State.SOURCE_DB_INSTANCES_DELETED })

/-- Embeds `_route_source_db_instances_deleted`. -/
def route_source_db_instances_deleted : Except PlanError (Option BaseAction) :=
  .ok (some { type := ActionType.DELETE, next_state := State.DELETING })

/-- Embeds `_route_deleting`. -/
def route_deleting : Except PlanError (Option BaseAction) :=
  .ok (some { type := ActionType.WAIT_FOR_DELETED, next_state := State.NO_OP })

/-- Embeds `_state_graph`: each handled state maps to its routing result and
the list of permitted next states; `none` models the `KeyError` for the two
states deliberately absent from the dict. -/
def BlueGreenDeploymentModel.state_graph (m : BlueGreenDeploymentModel) :
    State → Option (Except PlanError (Option BaseAction) × List State)
  | State.INIT => some (m.route_init, [State.NO_OP, State.PROVISIONING])
  | State.PROVISIONING => some (route_provisioning, [State.AVAILABLE])
  | State.AVAILABLE =>
      some (m.route_available, [State.SWITCHOVER_IN_PROGRESS, State.DELETING])
  | State.SWITCHOVER_IN_PROGRESS =>
      some (route_switchover_in_progress, [State.SWITCHOVER_COMPLETED])
  | State.SWITCHOVER_COMPLETED =>
      some (m.route_switchover_completed, [State.DELETING_SOURCE_DB_INSTANCES])
  | State.DELETING_SOURCE_DB_INSTANCES =>
      some (route_deleting_source_db_instances, [State.SOURCE_DB_INSTANCES_DELETED])
  | State.SOURCE_DB_INSTANCES_DELETED =>
      some (route_source_db_instances_deleted, [State.DELETING])
  | State.DELETING => some (route_deleting, [State.NO_OP])
  | _ => none

/-- Embeds the `while state != State.NO_OP` loop of `plan_actions`, over an
arbitrary transition graph and with explicit fuel (every allowed-set of the
actual graph moves strictly forward, so the loop terminates well inside the
fuel used below). -/
def plan_actions_from
    (graph : State → Option (Except PlanError (Option BaseAction) × List State)) :
    Nat → State → Except PlanError (List BaseAction)
  | 0, _ => .error .fuelExhausted
  | Nat.succ fuel, state =>
      if state = State.NO_OP then .ok []
      else
        match graph state with
        | none => .error (.missingStateEntry state)
        | some (routing_result, allowed_next_states) => do
            let action? ← routing_result
            match action? with
            | none => .ok []
            | some action =>
                if action.next_state ∈ allowed_next_states then
                  (plan_actions_from graph fuel action.next_state).map fun rest =>
                    if action.type = ActionType.NO_OP then rest else action :: rest
                else .error (.invalidTransition action.next_state state)

/-- Embeds `plan_actions`: run the loop from the derived state over the
model's state graph (fuel 10 covers the longest possible chain through the
ten states). -/
def BlueGreenDeploymentModel.plan_actions
    (m : BlueGreenDeploymentModel) : Except PlanError (List BaseAction) :=
  plan_actions_from m.state_graph 10 m.state

/-- A value of the serialized create-deployment request: a string, an
integer, or the AWS-formatted tag list produced by `serialize_tags`. -/
inductive AwsValue where
  | s (v : String)
  | n (v : Int)
  | tagList (v : List (String × String))
deriving DecidableEq, Repr

/-- Optional entry of the serialized request: present under its alias key
exactly when the field is set (`exclude_none=True`). -/
def optEntry {α : Type} (field : Option α) (key : String) (f : α → AwsValue) :
    List (String × AwsValue) :=
  match field with
  | none => []
  | some v => [(key, f v)]

/-- Embeds `params.model_dump(by_alias=True, exclude_none=True)` as used by
`AWSApi.create_blue_green_deployment`: alias keys in field-definition order,
unset optional fields omitted, tags rendered as a Key/Value list. -/
def CreateBlueGreenDeploymentParams.model_dump
    (p : CreateBlueGreenDeploymentParams) : List (String × AwsValue) :=
  [("BlueGreenDeploymentName", AwsValue.s p.name), ("Source", AwsValue.s p.source_arn)]
    ++ optEntry p.allocated_storage "TargetAllocatedStorage" AwsValue.n
    ++ optEntry p.engine_version "TargetEngineVersion" AwsValue.s
    ++ optEntry p.instance_class "TargetDBInstanceClass" AwsValue.s
    ++ optEntry p.iops "TargetIops" AwsValue.n
    ++ optEntry p.parameter_group_name "TargetDBParameterGroupName" AwsValue.s
    ++ optEntry p.storage_throughput "TargetStorageThroughput" AwsValue.n
    ++ optEntry p.storage_type "TargetStorageType" AwsValue.s
    ++ optEntry p.tags "Tags" AwsValue.tagList

/-- The cloud-provider read interface consumed while building the model: a
static snapshot of what each describe call would return during one
reconciliation pass. -/
structure Cloud where
  get_db_instance : String → Option DBInstanceTypeDef
  get_blue_green_deployment_valid_upgrade_targets :
    String → String → List (String × UpgradeTargetTypeDef)
  get_db_parameter_group : String → Option DBParameterGroupTypeDef
  get_blue_green_deployment : String → Option BlueGreenDeploymentTypeDef

/-- One Cloud Gateway call, read or mutating, recorded in order of issue. -/
inductive CloudCall where
  | getDBInstance (identifier : String)
  | getValidUpgradeTargets (engine : String) (version : String)
  | getDBParameterGroup (name : String)
  | getBlueGreenDeployment (name : String)
  | createBlueGreenDeployment (params : CreateBlueGreenDeploymentParams)
  | switchoverBlueGreenDeployment (identifier : String)
  | deleteDBInstance (identifier : String)
  | deleteBlueGreenDeployment (identifier : String) (delete_target : Bool)
deriving DecidableEq, Repr

/-- Rds input data (`er_aws_rds/input.py::Rds`), restricted to the fields the
manager reads. -/
structure Rds where
  blue_green_deployment : Option BlueGreenDeployment := none
  tags : Option (List (String × String)) := none
deriving DecidableEq, Repr

/-- Provisioning coordinates (`AppInterfaceProvision`). -/
structure AppInterfaceProvision where
  identifier : String
deriving DecidableEq, Repr

/-- Embeds `AppInterfaceInput` with the fields the manager reads. -/
structure AppInterfaceInput where
  data : Rds
  provision : AppInterfaceProvision
deriving DecidableEq, Repr

/-- Embeds `_fetch_blue_green_deployment_member_instances`: resolve each
member identifier of the given kind via `get_db_instance`, keeping the
resolvable ones; also returns the issued calls. -/
def fetch_member_instances (cloud : Cloud)
    (blue_green_deployment : Option BlueGreenDeploymentTypeDef)
    (member : SwitchoverDetail → Option String) :
    List DBInstanceTypeDef × List CloudCall :=
  match blue_green_deployment with
  | none => ([], [])
  | some bg =>
      let identifiers := bg.SwitchoverDetails.filterMap member
      (identifiers.filterMap cloud.get_db_instance,
        identifiers.map CloudCall.getDBInstance)

/-- Embeds `BlueGreenDeploymentManager._build_model` up to the constructor
call: assemble the candidate model from the cloud snapshot, recording the
Cloud Gateway calls issued. -/
def build_model_candidate (cloud : Cloud) (input : AppInterfaceInput)
    (config : BlueGreenDeployment) : BlueGreenDeploymentModel × List CloudCall :=
  let db_instance_identifier := input.provision.identifier
  let db_instance := cloud.get_db_instance db_instance_identifier
  let upgrade_targets_result :=
    match db_instance with
    | some db =>
        (cloud.get_blue_green_deployment_valid_upgrade_targets db.Engine db.EngineVersion,
          [CloudCall.getValidUpgradeTargets db.Engine db.EngineVersion])
    | none => ([], [])
  let target_parameter_group_name :=
    config.target.bind fun t => t.parameter_group.bind fun pg => pg.name
  let parameter_group_result :=
    match target_parameter_group_name with
    | some name => (cloud.get_db_parameter_group name, [CloudCall.getDBParameterGroup name])
    | none => (none, [])
  let blue_green_deployment := cloud.get_blue_green_deployment db_instance_identifier
  let source_result :=
    fetch_member_instances cloud blue_green_deployment SwitchoverDetail.SourceMember
  let target_result :=
    fetch_member_instances cloud blue_green_deployment SwitchoverDetail.TargetMember
  ({ state := State.INIT
     db_instance_identifier := db_instance_identifier
     config := config
     db_instance := db_instance
     valid_upgrade_targets := upgrade_targets_result.1
     target_db_parameter_group := parameter_group_result.1
     blue_green_deployment := blue_green_deployment
     source_db_instances := source_result.1
     target_db_instances := target_result.1
     tags := input.data.tags },
    [CloudCall.getDBInstance db_instance_identifier]
      ++ upgrade_targets_result.2
      ++ parameter_group_result.2
      ++ [CloudCall.getBlueGreenDeployment db_instance_identifier]
      ++ source_result.2 ++ target_result.2)

/-- Reconciliation-pass failure: a construction error, a planning error, or
whatever an action handler raises. -/
inductive RunError where
  | modelError (e : ModelError)
  | planError (e : PlanError)
  | handlerFailure
deriving DecidableEq, Repr

/-- Mutable manager state during the action loop: the model (whose `state`
field the manager advances) plus the recorded Cloud Gateway calls. -/
structure ManagerState where
  model : BlueGreenDeploymentModel
  calls : List CloudCall

/-- An action handler: the effect of dispatching one planned action on the
manager state (the source's `_action_handlers` dict is one such function; the
theorems below hold for every handler). -/
def ActionHandler : Type :=
  BaseAction → ManagerState → Except RunError ManagerState

/-- Embeds the action loop of `BlueGreenDeploymentManager.run`: each planned
action is logged, and unless in dry-run mode its handler runs and the model's
state advances to the action's next state. -/
def run_loop (dry_run : Bool) (handle : ActionHandler) :
    List BaseAction → ManagerState → Except RunError ManagerState
  | [], st => .ok st
  | action :: rest, st =>
      if dry_run then run_loop dry_run handle rest st
      else
        match handle action st with
        | .error e => .error e
        | .ok st1 =>
            run_loop dry_run handle rest
              { st1 with model := { st1.model with state := action.next_state } }

/-- Embeds `BlueGreenDeploymentManager.run`: return `not_enabled` without any
cloud call when the configuration is absent or disabled; otherwise build the
model, plan, execute (unless dry-run) and return the final state together
with the recorded calls. -/
def run (dry_run : Bool) (handle : ActionHandler) (cloud : Cloud)
    (input : AppInterfaceInput) : Except RunError (State × List CloudCall) :=
  match input.data.blue_green_deployment with
  | none => .ok (State.NOT_ENABLED, [])
  | some config =>
      if !config.enabled then .ok (State.NOT_ENABLED, [])
      else
        let built := build_model_candidate cloud input config
        match mkModel built.1 with
        | .error e => .error (.modelError e)
        | .ok model =>
            match model.plan_actions with
            | .error e => .error (.planError e)
            | .ok actions =>
                (run_loop dry_run handle actions { model := model, calls := built.2 }).map
                  fun st => (st.model.state, st.calls)

/-- Result of the wait primitive: success after a number of polls, or the
timeout error with its configured limit. -/
inductive WaitResult where
  | ok (iterations : Nat)
  | timeoutExceeded (timeout : Nat)
deriving DecidableEq, Repr

/-- Embeds the loop of `wait_for` from poll index k onward, with wall-clock
time idealized (condition checks are instantaneous and each sleep lasts
exactly `interval`, so elapsed at poll k is `k * interval`): check the
condition, then the deadline, then sleep and repeat.  `none` models an
infinite poll loop (fuel exhausted). -/
def wait_from (condition : Nat → Bool) (timeout : Option Nat) (interval : Nat) :
    Nat → Nat → Option WaitResult
  | 0, _ => none
  | Nat.succ fuel, k =>
      if condition k then some (.ok k)
      else
        let elapsed := k * interval
        match timeout with
        | some t => if t ≤ elapsed then some (.timeoutExceeded t)
            else wait_from condition timeout interval fuel (k + 1)
        | none => wait_from condition timeout interval fuel (k + 1)

/-- Embeds `hooks/utils/wait.py::wait_for`: poll the condition on a fixed
interval until it holds or the optional timeout elapses. -/
def wait_for (condition : Nat → Bool) (timeout : Option Nat) (interval : Nat)
    (fuel : Nat) : Option WaitResult :=
  wait_from condition timeout interval fuel 0

/-- Example postgres instance snapshot used as concrete input. -/
def exInstancePostgres : DBInstanceTypeDef :=
  { DBInstanceIdentifier := "test-rds"
    DBInstanceArn := "arn:aws:rds:us-east-1:123456789012:db:test-rds"
    DBInstanceStatus := "available"
    DeletionProtection := false
    BackupRetentionPeriod := 7
    Engine := "postgres"
    EngineVersion := "15.3"
    DBInstanceClass := "db.t4g.micro"
    StorageType := "gp3"
    StorageThroughput := 125
    AllocatedStorage := 20
    Iops := 3000
    DBParameterGroups :=
      [{ DBParameterGroupName := "default.postgres15", ParameterApplyStatus := "in-sync" }] }

/-- Example mysql instance snapshot on a version outside {5.7, 8.0, 8.4}. -/
def exInstanceMysql : DBInstanceTypeDef :=
  { exInstancePostgres with
    Engine := "mysql"
    EngineVersion := "5.6.2"
    DBParameterGroups :=
      [{ DBParameterGroupName := "default.mysql5.6", ParameterApplyStatus := "in-sync" }] }

/-- Cloud snapshot with no resources, for runs that must not consult it. -/
def exCloudEmpty : Cloud :=
  { get_db_instance := fun _ => none
    get_blue_green_deployment_valid_upgrade_targets := fun _ _ => []
    get_db_parameter_group := fun _ => none
    get_blue_green_deployment := fun _ => none }

/-- Handler that does nothing, standing in for the action-handler table. -/
def exHandler : ActionHandler := fun _ st => .ok st

/-- Input whose blue/green deployment configuration is present but disabled. -/
def exInputDisabled : AppInterfaceInput :=
  { data :=
      { blue_green_deployment :=
          some { enabled := false, switchover := false, delete := false }
        tags := none }
    provision := { identifier := "test-rds" } }

/-- Model candidate asking for an engine-version-only upgrade to 16.3. -/
def exModelEngineVersionOnly : BlueGreenDeploymentModel :=
  { state := State.INIT
    db_instance_identifier := "test-rds"
    config :=
      { enabled := true, switchover := true, delete := false
        target := some { engine_version := some "16.3" } }
    db_instance := some exInstancePostgres
    valid_upgrade_targets := [("16.3", { EngineVersion := "16.3", IsMajorVersionUpgrade := true })] }

/-- Model candidate for a mysql instance whose upgrade target is a minor
(non-major) version bump, with the current version outside the supported
set. -/
def exModelMysqlMinor : BlueGreenDeploymentModel :=
  { state := State.INIT
    db_instance_identifier := "test-rds"
    config := { enabled := true, switchover := true, delete := false }
    db_instance := some exInstanceMysql
    valid_upgrade_targets := [("5.6.2", { EngineVersion := "5.6.2", IsMajorVersionUpgrade := false })] }

/-- Model candidate for a postgres instance on an unsupported current version
(10.5) whose selected target is a minor upgrade. -/
def exModelPostgresMinor : BlueGreenDeploymentModel :=
  { state := State.INIT
    db_instance_identifier := "test-rds"
    config :=
      { enabled := true, switchover := true, delete := false
        target := some { engine_version := some "10.6" } }
    db_instance := some { exInstancePostgres with EngineVersion := "10.5" }
    valid_upgrade_targets := [("10.6", { EngineVersion := "10.6", IsMajorVersionUpgrade := false })] }

/-- Model candidate after a completed switchover with no resolvable source
members left (target version resolves to the current one, a non-major
entry). -/
def exModelSwitchoverCompleted : BlueGreenDeploymentModel :=
  { state := State.INIT
    db_instance_identifier := "test-rds"
    config := { enabled := true, switchover := true, delete := true }
    db_instance := some exInstancePostgres
    blue_green_deployment :=
      some { BlueGreenDeploymentIdentifier := "bgd-123"
             Status := "SWITCHOVER_COMPLETED"
             SwitchoverDetails := [] }
    valid_upgrade_targets := [("15.3", { EngineVersion := "15.3", IsMajorVersionUpgrade := false })] }

/-- Cleanup-only model candidate: delete requested without switchover. -/
def exModelCleanupOnly : BlueGreenDeploymentModel :=
  { state := State.INIT
    db_instance_identifier := "test-rds"
    config := { enabled := true, switchover := false, delete := true }
    db_instance := some exInstancePostgres }

/-- A deliberately broken transition graph whose routing result leaves the
allowed set, for exercising the defensive check. -/
def exBrokenGraph :
    State → Option (Except PlanError (Option BaseAction) × List State) :=
  fun _ => some (.ok (some { type := ActionType.DELETE, next_state := State.INIT }), [State.NO_OP])

/-- Model candidate whose deployment snapshot is AVAILABLE with no resolvable
target members. -/
def exModelAvailableNoTargets : BlueGreenDeploymentModel :=
  { exModelSwitchoverCompleted with
    blue_green_deployment :=
      some { BlueGreenDeploymentIdentifier := "bgd-123"
             Status := "AVAILABLE"
             SwitchoverDetails := [] } }

theorem exceptOkBind {ε α β : Type} (a : α) (f : α → Except ε β) :
    (Except.ok a >>= f : Except ε β) = f a := rfl

theorem exceptErrorBind {ε α β : Type} (e : ε) (f : α → Except ε β) :
    (Except.error e >>= f : Except ε β) = .error e := rfl

theorem wait_from_reaches_timeout (condition : Nat → Bool) (t interval : Nat)
    (k0 : Nat) (hfail : ∀ j, j ≤ k0 → condition j = false)
    (hdeadline : t ≤ k0 * interval)
    (hfirst : ∀ j, j < k0 → j * interval < t) :
    ∀ fuel k, k ≤ k0 → k0 - k < fuel →
      wait_from condition (some t) interval fuel k = some (.timeoutExceeded t) := by
  intro fuel
  induction fuel with
  | zero => intro k _ h; omega
  | succ n ih =>
      intro k hk hfuel
      have hc : condition k = false := hfail k hk
      by_cases hel : t ≤ k * interval
      · have : k = k0 := by
          by_contra hne
          exact absurd hel (by simpa using Nat.not_le.mpr (hfirst k (by omega)))
        simp [wait_from, hc, hel]
      · have hklt : k < k0 := by
          rcases Nat.lt_or_ge k k0 with h | h
          · exact h
          · have : k = k0 := by omega
            exact absurd (this ▸ hdeadline) hel
        simp only [wait_from, hc, Bool.false_eq_true, if_false]
        rw [if_neg hel]
        exact ih (k + 1) (by omega) (by omega)

theorem wait_from_reaches_ok (condition : Nat → Bool) (timeout : Option Nat)
    (interval : Nat) (k0 : Nat) (hc : condition k0 = true)
    (hfail : ∀ j, j < k0 → condition j = false)
    (hno : ∀ j, j < k0 → ∀ t, timeout = some t → j * interval < t) :
    ∀ fuel k, k ≤ k0 → k0 - k < fuel →
      wait_from condition timeout interval fuel k = some (.ok k0) := by
  intro fuel
  induction fuel with
  | zero => intro k _ h; omega
  | succ n ih =>
      intro k hk hfuel
      by_cases hkk : k = k0
      · subst hkk; simp [wait_from, hc]
      · have hklt : k < k0 := by omega
        have hcf : condition k = false := hfail k hklt
        simp only [wait_from, hcf, Bool.false_eq_true, if_false]
        cases htm : timeout with
        | none =>
            rw [htm] at ih
            exact ih (k + 1) (by omega) (by omega)
        | some t =>
            have hlt : ¬t ≤ k * interval := Nat.not_le.mpr (hno k hklt t htm)
            rw [htm] at ih
            simp only [if_neg hlt]
            exact ih (k + 1) (by omega) (by omega)

theorem wait_from_no_timeout_result (condition : Nat → Bool) (interval : Nat) :
    ∀ fuel k r, wait_from condition none interval fuel k = some r →
      ∀ t, r ≠ .timeoutExceeded t := by
  intro fuel
  induction fuel with
  | zero => intro k r h; simp [wait_from] at h
  | succ n ih =>
      intro k r h t
      by_cases hc : condition k = true
      · simp [wait_from, hc] at h
        simp [← h]
      · have hcf : condition k = false := by simpa using hc
        simp only [wait_from, hcf, Bool.false_eq_true, if_false] at h
        exact ih (k + 1) r h t

/-- C9: with a timeout configured, `wait_for` raises the timeout error at the
first poll whose (idealized) elapsed time reaches the timeout if the
condition has not held by then; it returns normally at the first poll where
the condition holds; and with no timeout configured it never produces the
timeout error, polling until the condition first holds. -/
theorem wait_for_timeout_and_completion :
    (∀ (condition : Nat → Bool) (t interval k0 fuel : Nat),
      (∀ j, j ≤ k0 → condition j = false) →
      t ≤ k0 * interval →
      (∀ j, j < k0 → j * interval < t) →
      k0 < fuel →
      wait_for condition (some t) interval fuel = some (.timeoutExceeded t))
    ∧ (∀ (condition : Nat → Bool) (timeout : Option Nat) (interval k0 fuel : Nat),
      condition k0 = true →
      (∀ j, j < k0 → condition j = false) →
      (∀ j, j < k0 → ∀ t, timeout = some t → j * interval < t) →
      k0 < fuel →
      wait_for condition timeout interval fuel = some (.ok k0))
    ∧ (∀ (condition : Nat → Bool) (interval fuel : Nat) (r : WaitResult),
      wait_for condition none interval fuel = some r →
      ∀ t, r ≠ .timeoutExceeded t) := by
  refine ⟨?_, ?_, ?_⟩
  · intro condition t interval k0 fuel hfail hdl hfirst hfuel
    exact wait_from_reaches_timeout condition t interval k0 hfail hdl hfirst fuel 0
      (by omega) (by omega)
  · intro condition timeout interval k0 fuel hc hfail hno hfuel
    exact wait_from_reaches_ok condition timeout interval k0 hc hfail hno fuel 0
      (by omega) (by omega)
  · intro condition interval fuel r h
    exact wait_from_no_timeout_result condition interval fuel 0 r h

theorem wait_for_timeout_and_completion_witness :
    ((∀ j, j ≤ 2 → (fun k => decide (3 ≤ k)) j = false)
      ∧ wait_for (fun k => decide (3 ≤ k)) (some 120) 60 5 = some (.timeoutExceeded 120))
    ∧ wait_for (fun k => decide (1 ≤ k)) none 60 5 = some (.ok 1) := by
  refine ⟨⟨?_, ?_⟩, ?_⟩
  · intro j hj
    interval_cases j <;> rfl
  · exact wait_for_timeout_and_completion.1 (fun k => decide (3 ≤ k)) 120 60 2 5
      (by intro j hj; interval_cases j <;> rfl) (by omega)
      (by intro j hj; interval_cases j <;> omega) (by omega)
  · exact wait_for_timeout_and_completion.2.1 (fun k => decide (1 ≤ k)) none 60 1 5
      (by rfl) (by intro j hj; interval_cases j <;> rfl)
      (by intro j _ t ht; cases ht) (by omega)

/-- C10: the availability check holds exactly when the deployment snapshot is
present with status AVAILABLE and all (possibly zero) target members report
status available; in particular with zero target members the check is
vacuously true and the derived state for an AVAILABLE snapshot is
`available`, not `provisioning`. -/
theorem availability_check_vacuous_on_empty_targets :
    (∀ m : BlueGreenDeploymentModel,
      m.is_blue_green_deployment_available = true ↔
        ∃ bg, m.blue_green_deployment = some bg ∧ bg.Status = "AVAILABLE"
          ∧ ∀ db ∈ m.target_db_instances, db.DBInstanceStatus = "available")
    ∧ (∀ (m0 : BlueGreenDeploymentModel) (bg : BlueGreenDeploymentTypeDef),
      m0.blue_green_deployment = some bg → bg.Status = "AVAILABLE" →
      m0.target_db_instances = [] →
      m0.init_state = .ok { m0 with state := State.AVAILABLE }) := by
  constructor
  · intro m
    cases hbg : m.blue_green_deployment with
    | none => simp [BlueGreenDeploymentModel.is_blue_green_deployment_available, hbg]
    | some bg =>
        simp [BlueGreenDeploymentModel.is_blue_green_deployment_available, hbg,
          List.all_eq_true]
  · intro m0 bg hbg hst htl
    simp [BlueGreenDeploymentModel.init_state,
      BlueGreenDeploymentModel.compute_initial_state, hbg, hst,
      BlueGreenDeploymentModel.is_blue_green_deployment_available, htl,
      Except.map]

theorem availability_check_vacuous_on_empty_targets_witness :
    exModelAvailableNoTargets.init_state
      = .ok { exModelAvailableNoTargets with state := State.AVAILABLE } :=
  availability_check_vacuous_on_empty_targets.2 exModelAvailableNoTargets
    { BlueGreenDeploymentIdentifier := "bgd-123"
      Status := "AVAILABLE"
      SwitchoverDetails := [] }
    rfl rfl rfl

/-- C7: with the blue/green deployment configuration absent or disabled, the
manager returns `not_enabled` immediately and issues no Cloud Gateway call at
all, read or mutating, whatever the handler, the cloud contents and the
dry-run flag. -/
theorem run_not_enabled_no_cloud_calls
    (dry_run : Bool) (handle : ActionHandler) (cloud : Cloud)
    (input : AppInterfaceInput)
    (h : input.data.blue_green_deployment = none
      ∨ ∃ config, input.data.blue_green_deployment = some config
          ∧ config.enabled = false) :
    run dry_run handle cloud input = .ok (State.NOT_ENABLED, []) := by
  rcases h with h | ⟨config, h, henabled⟩
  · simp [run, h]
  · simp [run, h, henabled]

theorem run_not_enabled_no_cloud_calls_witness :
    run true exHandler exCloudEmpty exInputDisabled = .ok (State.NOT_ENABLED, []) :=
  run_not_enabled_no_cloud_calls true exHandler exCloudEmpty exInputDisabled
    (Or.inr ⟨_, rfl, rfl⟩)

theorem run_loop_dry (handle : ActionHandler) (actions : List BaseAction)
    (st : ManagerState) : run_loop true handle actions st = .ok st := by
  induction actions with
  | nil => rfl
  | cons a rest ih => simpa [run_loop] using ih

/-- C8: in dry-run mode the manager dispatches no action handler (the outcome
is identical for every handler) and never advances the model state, so the
returned state is exactly the state derived at model construction (or
`not_enabled` with no calls when the feature is off). -/
theorem dry_run_returns_pre_action_state :
    (∀ (h1 h2 : ActionHandler) (cloud : Cloud) (input : AppInterfaceInput),
      run true h1 cloud input = run true h2 cloud input)
    ∧ (∀ (handle : ActionHandler) (cloud : Cloud) (input : AppInterfaceInput)
        (s : State) (calls : List CloudCall),
      run true handle cloud input = .ok (s, calls) →
      (s = State.NOT_ENABLED ∧ calls = [])
      ∨ ∃ config m, input.data.blue_green_deployment = some config
          ∧ mkModel (build_model_candidate cloud input config).1 = .ok m
          ∧ s = m.state
          ∧ calls = (build_model_candidate cloud input config).2) := by
  constructor
  · intro h1 h2 cloud input
    unfold run
    cases input.data.blue_green_deployment with
    | none => rfl
    | some config =>
        by_cases he : config.enabled
        · simp only [he, Bool.not_true, Bool.false_eq_true, if_false]
          split
          · rfl
          · split
            · rfl
            · rw [run_loop_dry, run_loop_dry]
        · simp [he]
  · intro handle cloud input s calls hrun
    unfold run at hrun
    cases hcfg : input.data.blue_green_deployment with
    | none =>
        rw [hcfg] at hrun
        have hrun2 : Except.ok (ε := RunError) (State.NOT_ENABLED, ([] : List CloudCall))
            = Except.ok (s, calls) := hrun
        injection hrun2 with hp
        injection hp with hs hc
        exact Or.inl ⟨hs.symm, hc.symm⟩
    | some config =>
        rw [hcfg] at hrun
        by_cases he : config.enabled
        · simp only [he, Bool.not_true, Bool.false_eq_true, if_false] at hrun
          split at hrun
          · cases hrun
          · rename_i model hmk
            split at hrun
            · cases hrun
            · rename_i actions hpl
              rw [run_loop_dry] at hrun
              have hrun2 : Except.ok (ε := RunError)
                  (model.state, (build_model_candidate cloud input config).2)
                  = Except.ok (s, calls) := hrun
              injection hrun2 with hp
              injection hp with hs hc
              exact Or.inr ⟨config, model, rfl, hmk, hs.symm, hc.symm⟩
        · simp only [he, Bool.not_false, if_true] at hrun
          have hrun2 : Except.ok (ε := RunError) (State.NOT_ENABLED, ([] : List CloudCall))
              = Except.ok (s, calls) := hrun
          injection hrun2 with hp
          injection hp with hs hc
          exact Or.inl ⟨hs.symm, hc.symm⟩

theorem dry_run_returns_pre_action_state_witness :
    (State.NOT_ENABLED = State.NOT_ENABLED ∧ ([] : List CloudCall) = [])
    ∨ ∃ config m,
        exInputDisabled.data.blue_green_deployment = some config
        ∧ mkModel (build_model_candidate exCloudEmpty exInputDisabled config).1 = .ok m
        ∧ State.NOT_ENABLED = m.state
        ∧ ([] : List CloudCall) =
            (build_model_candidate exCloudEmpty exInputDisabled config).2 :=
  dry_run_returns_pre_action_state.2 exHandler exCloudEmpty exInputDisabled
    State.NOT_ENABLED [] rfl

theorem exceptMapOk {ε α β : Type} (f : α → β) (x : Except ε α) (b : β)
    (h : x.map f = .ok b) : ∃ a, x = .ok a ∧ b = f a := by
  cases x with
  | error e => simp [Except.map] at h
  | ok a =>
      simp only [Except.map] at h
      injection h with h2
      exact ⟨a, rfl, h2.symm⟩

theorem plan_actions_from_ok_sound
    (graph : State → Option (Except PlanError (Option BaseAction) × List State)) :
    ∀ (fuel : Nat) (s : State) (l : List BaseAction),
      plan_actions_from graph fuel s = .ok l →
      ∀ a ∈ l, ∃ sFrom allowed,
        graph sFrom = some (.ok (some a), allowed) ∧ a.next_state ∈ allowed := by
  intro fuel
  induction fuel with
  | zero => intro s l h; cases h
  | succ n ih =>
      intro s l h a ha
      rw [plan_actions_from] at h
      simp only [bind, Except.bind] at h
      split at h
      · injection h with h2
        subst h2
        cases ha
      · split at h
        · cases h
        · split at h
          · cases h
          · split at h
            · injection h with h2
              subst h2
              cases ha
            · split at h
              · obtain ⟨rest, hrec, hl⟩ := exceptMapOk _ _ _ h
                subst hl
                split at ha
                · exact ih _ rest hrec a ha
                · cases ha with
                  | head =>
                      rename_i hmem hne
                      exact ⟨s, _, by assumption, hmem⟩
                  | tail _ hmemb => exact ih _ rest hrec a hmemb
              · cases h

/-- C1: every action in a successful `plan_actions` result has a `next_state`
inside the allowed-next-state set that the transition table pairs with the
state the action was routed from; and whenever a routing function returns an
action whose `next_state` falls outside that set, the planning loop raises
the invalid-transition error at that step instead of returning the action. -/
theorem plan_actions_respects_transition_table :
    (∀ (m : BlueGreenDeploymentModel) (l : List BaseAction),
      m.plan_actions = .ok l →
      ∀ a ∈ l, ∃ sFrom allowed,
        m.state_graph sFrom = some (.ok (some a), allowed) ∧ a.next_state ∈ allowed)
    ∧ (∀ (graph : State → Option (Except PlanError (Option BaseAction) × List State))
        (s : State) (a : BaseAction) (allowed : List State) (fuel : Nat),
      graph s = some (.ok (some a), allowed) →
      a.next_state ∉ allowed → s ≠ State.NO_OP →
      plan_actions_from graph (fuel + 1) s
        = .error (.invalidTransition a.next_state s)) := by
  constructor
  · intro m l h a ha
    exact plan_actions_from_ok_sound m.state_graph 10 m.state l h a ha
  · intro graph s a allowed fuel hg hnotmem hs
    rw [plan_actions_from, if_neg hs, hg]
    simp [bind, Except.bind, hnotmem]

theorem plan_actions_respects_transition_table_witness :
    plan_actions_from exBrokenGraph 1 State.DELETING
      = .error (.invalidTransition State.INIT State.DELETING) :=
  plan_actions_respects_transition_table.2 exBrokenGraph State.DELETING
    { type := ActionType.DELETE, next_state := State.INIT } [State.NO_OP] 0 rfl
    (by decide) (by decide)

theorem validate_db_instance_exist_pres :
    ∀ (a b : BlueGreenDeploymentModel), a.validate_db_instance_exist = .ok b → b = a := by
  intro a b h
  unfold BlueGreenDeploymentModel.validate_db_instance_exist at h
  repeat' split at h
  all_goals try cases h
  all_goals rfl

theorem validate_target_parameter_group_pres :
    ∀ (a b : BlueGreenDeploymentModel), a.validate_target_parameter_group = .ok b → b = a := by
  intro a b h
  unfold BlueGreenDeploymentModel.validate_target_parameter_group at h
  repeat' split at h
  all_goals try cases h
  all_goals rfl

theorem validate_deletion_protection_pres :
    ∀ (a b : BlueGreenDeploymentModel), a.validate_deletion_protection = .ok b → b = a := by
  intro a b h
  unfold BlueGreenDeploymentModel.validate_deletion_protection at h
  repeat' split at h
  all_goals try cases h
  all_goals rfl

theorem validate_backup_retention_period_pres :
    ∀ (a b : BlueGreenDeploymentModel), a.validate_backup_retention_period = .ok b → b = a := by
  intro a b h
  unfold BlueGreenDeploymentModel.validate_backup_retention_period at h
  repeat' split at h
  all_goals try cases h
  all_goals rfl

theorem validate_version_upgrade_pres :
    ∀ (a b : BlueGreenDeploymentModel), a.validate_version_upgrade = .ok b → b = a := by
  intro a b h
  unfold BlueGreenDeploymentModel.validate_version_upgrade at h
  simp only [bind, Except.bind] at h
  repeat' split at h
  all_goals try cases h
  all_goals rfl

theorem validate_supported_engine_version_pres :
    ∀ (a b : BlueGreenDeploymentModel),
      a.validate_supported_engine_version = .ok b → b = a := by
  intro a b h
  unfold BlueGreenDeploymentModel.validate_supported_engine_version at h
  simp only [bind, Except.bind] at h
  repeat' split at h
  all_goals try cases h
  all_goals rfl

theorem validate_source_parameter_group_status_pres :
    ∀ (a b : BlueGreenDeploymentModel),
      a.validate_source_parameter_group_status = .ok b → b = a := by
  intro a b h
  unfold BlueGreenDeploymentModel.validate_source_parameter_group_status at h
  try simp only [] at h
  repeat' split at h
  all_goals try cases h
  all_goals rfl

theorem chain_ok {e : Except ModelError BlueGreenDeploymentModel}
    {g : BlueGreenDeploymentModel → Except ModelError BlueGreenDeploymentModel}
    {m : BlueGreenDeploymentModel}
    (hg : ∀ a b, g a = .ok b → b = a) (h : (e >>= g) = .ok m) : e = .ok m := by
  cases he : e with
  | error e2 =>
      rw [he, exceptErrorBind] at h
      cases h
  | ok a =>
      rw [he, exceptOkBind] at h
      rw [hg a m h]

theorem mkModel_ok_shape {m0 m : BlueGreenDeploymentModel} (h : mkModel m0 = .ok m) :
    ∃ s, m0.compute_initial_state = .ok s ∧ m = { m0 with state := s } := by
  unfold mkModel at h
  have h1 := chain_ok validate_source_parameter_group_status_pres h
  have h2 := chain_ok validate_supported_engine_version_pres h1
  have h3 := chain_ok validate_version_upgrade_pres h2
  have h4 := chain_ok validate_backup_retention_period_pres h3
  have h5 := chain_ok validate_deletion_protection_pres h4
  have h6 := chain_ok validate_target_parameter_group_pres h5
  have h7 := chain_ok validate_db_instance_exist_pres h6
  unfold BlueGreenDeploymentModel.init_state at h7
  cases hcs : m0.compute_initial_state with
  | error e =>
      rw [hcs] at h7
      simp [Except.map] at h7
  | ok s =>
      rw [hcs] at h7
      simp only [Except.map] at h7
      injection h7 with h8
      exact ⟨s, rfl, h8.symm⟩

/-- C2: for a deployment snapshot with status SWITCHOVER_COMPLETED the state
derivation yields source_db_instances_deleted when the resolvable
source-member list is empty, deleting_source_db_instances when any resolvable
source member reports deleting, and switchover_completed otherwise; and a
model constructed in the empty-source-members case plans no
delete_source_db_instance action. -/
theorem switchover_completed_state_derivation :
    (∀ (m : BlueGreenDeploymentModel) (bg : BlueGreenDeploymentTypeDef),
      m.blue_green_deployment = some bg → bg.Status = "SWITCHOVER_COMPLETED" →
      ((m.source_db_instances = [] →
          m.compute_initial_state = .ok State.SOURCE_DB_INSTANCES_DELETED)
        ∧ (m.source_db_instances ≠ [] →
            (∃ db ∈ m.source_db_instances, db.DBInstanceStatus = "deleting") →
            m.compute_initial_state = .ok State.DELETING_SOURCE_DB_INSTANCES)
        ∧ (m.source_db_instances ≠ [] →
            (∀ db ∈ m.source_db_instances, db.DBInstanceStatus ≠ "deleting") →
            m.compute_initial_state = .ok State.SWITCHOVER_COMPLETED)))
    ∧ (∀ (m0 m : BlueGreenDeploymentModel) (bg : BlueGreenDeploymentTypeDef),
      m0.blue_green_deployment = some bg → bg.Status = "SWITCHOVER_COMPLETED" →
      m0.source_db_instances = [] →
      mkModel m0 = .ok m →
      ∀ l, m.plan_actions = .ok l →
        ∀ a ∈ l, a.type ≠ ActionType.DELETE_SOURCE_DB_INSTANCE) := by
  constructor
  · intro m bg hbg hst
    refine ⟨?_, ?_, ?_⟩
    · intro hsrc
      simp [BlueGreenDeploymentModel.compute_initial_state, hbg, hst, hsrc]
    · intro hne hdel
      simp [BlueGreenDeploymentModel.compute_initial_state, hbg, hst,
        List.isEmpty_iff, hne, List.any_eq_true, hdel]
    · intro hne hall
      simp [BlueGreenDeploymentModel.compute_initial_state, hbg, hst,
        List.isEmpty_iff, hne, List.any_eq_true]
      exact hall
  · intro m0 m bg hbg hst hempty hmk l hpl a ha
    obtain ⟨s, hcs, rfl⟩ := mkModel_ok_shape hmk
    have hcs2 : m0.compute_initial_state = .ok State.SOURCE_DB_INSTANCES_DELETED := by
      simp [BlueGreenDeploymentModel.compute_initial_state, hbg, hst, hempty]
    rw [hcs2] at hcs
    injection hcs with hs
    subst hs
    have hplan : BlueGreenDeploymentModel.plan_actions
        { m0 with state := State.SOURCE_DB_INSTANCES_DELETED }
        = .ok [{ type := ActionType.DELETE, next_state := State.DELETING },
            { type := ActionType.WAIT_FOR_DELETED, next_state := State.NO_OP }] := rfl
    rw [hplan] at hpl
    injection hpl with hl
    subst hl
    simp [List.mem_cons] at ha
    rcases ha with rfl | rfl <;> decide

theorem switchover_completed_state_derivation_witness :
    BaseAction.type { type := ActionType.DELETE, next_state := State.DELETING }
      ≠ ActionType.DELETE_SOURCE_DB_INSTANCE :=
  switchover_completed_state_derivation.2 exModelSwitchoverCompleted
    { exModelSwitchoverCompleted with state := State.SOURCE_DB_INSTANCES_DELETED }
    { BlueGreenDeploymentIdentifier := "bgd-123"
      Status := "SWITCHOVER_COMPLETED"
      SwitchoverDetails := [] }
    rfl rfl rfl rfl
    [{ type := ActionType.DELETE, next_state := State.DELETING },
      { type := ActionType.WAIT_FOR_DELETED, next_state := State.NO_OP }]
    rfl
    { type := ActionType.DELETE, next_state := State.DELETING }
    (List.mem_cons_self _ _)

theorem unchanged_iff {α : Type} [BEq α] [LawfulBEq α] (o : Option α) (c : α) :
    unchanged o c = true ↔ ∀ v, o = some v → v = c := by
  cases o <;> simp [unchanged]

/-- C5: from the derived state init, a delete request with switchover off or
with no effective changes plans nothing at all; otherwise the plan starts
with a create action moving to provisioning; and `no_changes` holds exactly
when every explicitly-set target field equals the corresponding live
instance field. -/
theorem route_init_no_op_and_create :
    (∀ m : BlueGreenDeploymentModel,
      m.state = State.INIT → m.config.delete = true →
      (m.config.switchover = false ∨ m.no_changes = .ok true) →
      m.plan_actions = .ok [])
    ∧ (∀ (m : BlueGreenDeploymentModel) (db : DBInstanceTypeDef),
      m.state = State.INIT → m.db_instance = some db →
      (m.config.delete = false
        ∨ (m.config.switchover = true ∧ m.no_changes = .ok false)) →
      ∃ a rest, m.plan_actions = .ok (a :: rest)
        ∧ a.type = ActionType.CREATE ∧ a.next_state = State.PROVISIONING)
    ∧ (∀ (m : BlueGreenDeploymentModel) (db : DBInstanceTypeDef)
        (pg0 : DBParameterGroupStatus) (pgrest : List DBParameterGroupStatus),
      m.db_instance = some db → db.DBParameterGroups = pg0 :: pgrest →
      (m.no_changes = .ok true ↔
        (∀ v, ((m.config.target.getD {}).parameter_group.bind fun pg => pg.name)
            = some v → v = pg0.DBParameterGroupName)
        ∧ (∀ v, (m.config.target.getD {}).iops = some v → v = db.Iops)
        ∧ (∀ v, (m.config.target.getD {}).engine_version = some v
            → v = db.EngineVersion)
        ∧ (∀ v, (m.config.target.getD {}).instance_class = some v
            → v = db.DBInstanceClass)
        ∧ (∀ v, (m.config.target.getD {}).storage_throughput = some v
            → v = db.StorageThroughput)
        ∧ (∀ v, (m.config.target.getD {}).storage_type = some v
            → v = db.StorageType)
        ∧ (∀ v, (m.config.target.getD {}).allocated_storage = some v
            → v = db.AllocatedStorage))) := by
  refine ⟨?_, ?_, ?_⟩
  · intro m hstate hd hcase
    rcases hcase with hsw | hnc
    · simp [BlueGreenDeploymentModel.plan_actions, plan_actions_from, hstate,
        BlueGreenDeploymentModel.state_graph, BlueGreenDeploymentModel.route_init,
        hd, hsw, bind, Except.bind, pure, Except.pure, Except.map]
    · cases hswb : m.config.switchover with
      | false =>
          simp [BlueGreenDeploymentModel.plan_actions, plan_actions_from, hstate,
            BlueGreenDeploymentModel.state_graph, BlueGreenDeploymentModel.route_init,
            hd, hswb, bind, Except.bind, pure, Except.pure, Except.map]
      | true =>
          simp [BlueGreenDeploymentModel.plan_actions, plan_actions_from, hstate,
            BlueGreenDeploymentModel.state_graph, BlueGreenDeploymentModel.route_init,
            hd, hswb, hnc, bind, Except.bind, pure, Except.pure, Except.map]
  · intro m db hstate hdb hcase
    rcases hcase with hdf | ⟨hst2, hnc⟩
    · cases hswb : m.config.switchover with
      | false =>
          simp [BlueGreenDeploymentModel.plan_actions, plan_actions_from, hstate,
            BlueGreenDeploymentModel.state_graph, BlueGreenDeploymentModel.route_init,
            BlueGreenDeploymentModel.route_available, route_provisioning,
            hdf, hswb, hdb, bind, Except.bind, pure, Except.pure, Except.map]
      | true =>
          simp [BlueGreenDeploymentModel.plan_actions, plan_actions_from, hstate,
            BlueGreenDeploymentModel.state_graph, BlueGreenDeploymentModel.route_init,
            BlueGreenDeploymentModel.route_available, route_provisioning,
            route_switchover_in_progress,
            BlueGreenDeploymentModel.route_switchover_completed,
            hdf, hswb, hdb, bind, Except.bind, pure, Except.pure, Except.map]
    · cases hdel2 : m.config.delete with
      | false =>
          simp [BlueGreenDeploymentModel.plan_actions, plan_actions_from, hstate,
            BlueGreenDeploymentModel.state_graph, BlueGreenDeploymentModel.route_init,
            BlueGreenDeploymentModel.route_available, route_provisioning,
            route_switchover_in_progress,
            BlueGreenDeploymentModel.route_switchover_completed,
            hdel2, hst2, hdb, bind, Except.bind, pure, Except.pure, Except.map]
      | true =>
          simp [BlueGreenDeploymentModel.plan_actions, plan_actions_from, hstate,
            BlueGreenDeploymentModel.state_graph, BlueGreenDeploymentModel.route_init,
            BlueGreenDeploymentModel.route_available, route_provisioning,
            route_switchover_in_progress,
            BlueGreenDeploymentModel.route_switchover_completed,
            route_deleting_source_db_instances, route_source_db_instances_deleted,
            route_deleting,
            hdel2, hst2, hnc, hdb, bind, Except.bind, pure, Except.pure, Except.map]
  · intro m db pg0 pgrest hdb hpg
    unfold BlueGreenDeploymentModel.no_changes
    simp only [hdb]
    simp only [hpg]
    simp only [Bool.and_eq_true, unchanged_iff, Except.ok.injEq]
    tauto

theorem route_init_no_op_and_create_witness :
    exModelCleanupOnly.plan_actions = .ok [] :=
  route_init_no_op_and_create.1 exModelCleanupOnly rfl rfl (Or.inl rfl)

theorem optEntry_key_mem {α : Type} (field : Option α) (key : String)
    (f : α → AwsValue) (k : String) :
    k ∈ (optEntry field key f).map Prod.fst ↔ k = key ∧ field.isSome := by
  cases field <;> simp [optEntry]

theorem optEntry_key_mem_pair {α : Type} (field : Option α) (key : String)
    (f : α → AwsValue) (k : String) :
    (∃ x, (k, x) ∈ optEntry field key f) ↔ k = key ∧ field.isSome := by
  cases field <;> simp [optEntry]

/-- C6: the serialized create request carries exactly the mandatory name and
source ARN keys, one key per explicitly-set target override, and the tags key
when tags are set; and the create action planned for a target that only sets
engine_version 16.3 serializes to exactly the name, source ARN and
engine-version override. -/
theorem create_payload_is_sparse :
    (∀ (p : CreateBlueGreenDeploymentParams) (k : String),
      k ∈ p.model_dump.map Prod.fst ↔
        (k = "BlueGreenDeploymentName" ∨ k = "Source"
          ∨ (k = "TargetAllocatedStorage" ∧ p.allocated_storage.isSome)
          ∨ (k = "TargetEngineVersion" ∧ p.engine_version.isSome)
          ∨ (k = "TargetDBInstanceClass" ∧ p.instance_class.isSome)
          ∨ (k = "TargetIops" ∧ p.iops.isSome)
          ∨ (k = "TargetDBParameterGroupName" ∧ p.parameter_group_name.isSome)
          ∨ (k = "TargetStorageThroughput" ∧ p.storage_throughput.isSome)
          ∨ (k = "TargetStorageType" ∧ p.storage_type.isSome)
          ∨ (k = "Tags" ∧ p.tags.isSome)))
    ∧ (∃ rest, exModelEngineVersionOnly.plan_actions = .ok
        ({ type := ActionType.CREATE
           next_state := State.PROVISIONING
           payload := some
             { name := "test-rds"
               source_arn := "arn:aws:rds:us-east-1:123456789012:db:test-rds"
               engine_version := some "16.3" } } :: rest)
      ∧ CreateBlueGreenDeploymentParams.model_dump
          { name := "test-rds"
            source_arn := "arn:aws:rds:us-east-1:123456789012:db:test-rds"
            engine_version := some "16.3" }
        = [("BlueGreenDeploymentName", AwsValue.s "test-rds"),
            ("Source", AwsValue.s "arn:aws:rds:us-east-1:123456789012:db:test-rds"),
            ("TargetEngineVersion", AwsValue.s "16.3")]) := by
  constructor
  · intro p k
    simp [CreateBlueGreenDeploymentParams.model_dump, optEntry_key_mem,
      List.mem_append, optEntry_key_mem_pair]
  · exact ⟨_, rfl, rfl⟩

theorem postgres_min_list :
    ["11.21", "12.16", "13.12", "14.9", "15.4", "16.1"].filterMap parse_semver
      = [⟨11, 21, 0⟩, ⟨12, 16, 0⟩, ⟨13, 12, 0⟩, ⟨14, 9, 0⟩, ⟨15, 4, 0⟩,
          ⟨16, 1, 0⟩] := by decide

theorem is_postgres_version_supported_spec (version : String) (v : Semver)
    (h : parse_semver version = some v) :
    ∃ b, is_postgres_version_supported version = some b
      ∧ (b = true ↔
        ((v.major = 11 ∧ 21 ≤ v.minor) ∨ (v.major = 12 ∧ 16 ≤ v.minor)
          ∨ (v.major = 13 ∧ 12 ≤ v.minor) ∨ (v.major = 14 ∧ 9 ≤ v.minor)
          ∨ (v.major = 15 ∧ 4 ≤ v.minor) ∨ (v.major = 16 ∧ 1 ≤ v.minor)
          ∨ 16 < v.major)) := by
  have hb : is_postgres_version_supported version
      = some (if Semver.ge v ⟨16, 1, 0⟩ then true
          else [(⟨11, 21, 0⟩ : Semver), ⟨12, 16, 0⟩, ⟨13, 12, 0⟩, ⟨14, 9, 0⟩,
              ⟨15, 4, 0⟩, ⟨16, 1, 0⟩].any
            fun m => v.major == m.major && decide (m.minor ≤ v.minor)) := by
    unfold is_postgres_version_supported
    rw [h]
    simp only [Option.map_some', postgres_min_list, Option.some.injEq]
    rfl
  refine ⟨_, hb, ?_⟩
  constructor
  · intro hcond
    split at hcond
    · rename_i hge
      simp only [Semver.ge, Bool.or_eq_true, Bool.and_eq_true, decide_eq_true_eq,
        beq_iff_eq] at hge
      omega
    · simp only [List.any_cons, List.any_nil, Bool.or_eq_true, Bool.and_eq_true,
        beq_iff_eq, decide_eq_true_eq, Bool.false_eq_true, or_false] at hcond
      omega
  · intro hrule
    by_cases hge : Semver.ge v ⟨16, 1, 0⟩ = true
    · simp [hge]
    · rw [if_neg hge]
      simp only [Semver.ge, Bool.or_eq_true, Bool.and_eq_true, decide_eq_true_eq,
        beq_iff_eq] at hge
      simp only [List.any_cons, List.any_nil, Bool.or_eq_true, Bool.and_eq_true,
        beq_iff_eq, decide_eq_true_eq, Bool.false_eq_true, or_false]
      omega

theorem validate_source_pg_status_ne_unsupported (m : BlueGreenDeploymentModel)
    (e v : String) :
    m.validate_source_parameter_group_status
      ≠ .error (.unsupportedEngineVersion e v) := by
  unfold BlueGreenDeploymentModel.validate_source_parameter_group_status
  intro h
  try simp only [] at h
  repeat' split at h
  all_goals cases h

/-- C3: with engine postgres and a major-version upgrade target selected, and
all earlier validators passing, model construction raises the postgres
unsupported-engine-version precondition error exactly when the current
version fails the published minimum rule (minors 11.21, 12.16, 13.12, 14.9,
15.4, 16.1; any major beyond the last listed passes unconditionally; any
other major fails). -/
theorem postgres_major_upgrade_minimum_rule
    (m0 m1 : BlueGreenDeploymentModel) (db : DBInstanceTypeDef)
    (tv : String) (ut : UpgradeTargetTypeDef) (v : Semver)
    (h1 : m0.init_state = .ok m1)
    (h2 : m1.validate_db_instance_exist = .ok m1)
    (h3 : m1.validate_target_parameter_group = .ok m1)
    (h4 : m1.validate_deletion_protection = .ok m1)
    (h5 : m1.validate_backup_retention_period = .ok m1)
    (h6 : m1.validate_version_upgrade = .ok m1)
    (hdb : m1.db_instance = some db)
    (heng : db.Engine = "postgres")
    (htv : m1.get_target_engine_version = .ok tv)
    (hut : m1.valid_upgrade_targets.lookup tv = some ut)
    (hmaj : ut.IsMajorVersionUpgrade = true)
    (hv : parse_semver db.EngineVersion = some v) :
    mkModel m0 = .error (.unsupportedEngineVersion "postgres" db.EngineVersion)
      ↔ ¬((v.major = 11 ∧ 21 ≤ v.minor) ∨ (v.major = 12 ∧ 16 ≤ v.minor)
          ∨ (v.major = 13 ∧ 12 ≤ v.minor) ∨ (v.major = 14 ∧ 9 ≤ v.minor)
          ∨ (v.major = 15 ∧ 4 ≤ v.minor) ∨ (v.major = 16 ∧ 1 ≤ v.minor)
          ∨ 16 < v.major) := by
  unfold mkModel
  rw [h1, exceptOkBind, h2, exceptOkBind, h3, exceptOkBind, h4, exceptOkBind,
    h5, exceptOkBind, h6, exceptOkBind]
  obtain ⟨b, hips, hbiff⟩ := is_postgres_version_supported_spec db.EngineVersion v hv
  unfold BlueGreenDeploymentModel.validate_supported_engine_version
  cases b with
  | false =>
      have hR : ¬((v.major = 11 ∧ 21 ≤ v.minor) ∨ (v.major = 12 ∧ 16 ≤ v.minor)
          ∨ (v.major = 13 ∧ 12 ≤ v.minor) ∨ (v.major = 14 ∧ 9 ≤ v.minor)
          ∨ (v.major = 15 ∧ 4 ≤ v.minor) ∨ (v.major = 16 ∧ 1 ≤ v.minor)
          ∨ 16 < v.major) := fun hr => by simpa using hbiff.mpr hr
      simp [htv, hut, hdb, heng, hmaj, hips, bind, Except.bind, hR]
  | true =>
      have hR : (v.major = 11 ∧ 21 ≤ v.minor) ∨ (v.major = 12 ∧ 16 ≤ v.minor)
          ∨ (v.major = 13 ∧ 12 ≤ v.minor) ∨ (v.major = 14 ∧ 9 ≤ v.minor)
          ∨ (v.major = 15 ∧ 4 ≤ v.minor) ∨ (v.major = 16 ∧ 1 ≤ v.minor)
          ∨ 16 < v.major := hbiff.mp rfl
      simp [htv, hut, hdb, heng, hmaj, hips, bind, Except.bind, hR,
        validate_source_pg_status_ne_unsupported m1 "postgres" db.EngineVersion]

theorem postgres_major_upgrade_minimum_rule_witness :
    mkModel exModelEngineVersionOnly
      = .error (.unsupportedEngineVersion "postgres" "15.3") :=
  (postgres_major_upgrade_minimum_rule exModelEngineVersionOnly
      exModelEngineVersionOnly exInstancePostgres "16.3"
      { EngineVersion := "16.3", IsMajorVersionUpgrade := true } ⟨15, 3, 0⟩
      rfl rfl rfl rfl rfl rfl rfl rfl rfl rfl rfl rfl).mpr (by decide)

theorem mysql_version_check_ignores_major_flag_counterexample :
    exModelMysqlMinor.valid_upgrade_targets.lookup "5.6.2"
        = some { EngineVersion := "5.6.2", IsMajorVersionUpgrade := false }
      ∧ mkModel exModelMysqlMinor
        = .error (.unsupportedEngineVersion "mysql" "5.6.2") :=
  ⟨rfl, rfl⟩

/-- C4 (amended): the per-engine engine-version support check is gated on the
major-version-upgrade flag only for engine postgres: when the resolved
upgrade target's entry has is-major-version-upgrade false and the earlier
validators pass, construction of a postgres model never raises the
unsupported-engine-version precondition error (mysql, by contrast, is
checked regardless of the flag, as the counterexample shows). -/
theorem non_major_upgrade_skips_postgres_version_check
    (m0 m1 : BlueGreenDeploymentModel) (db : DBInstanceTypeDef)
    (tv : String) (ut : UpgradeTargetTypeDef)
    (h1 : m0.init_state = .ok m1)
    (h2 : m1.validate_db_instance_exist = .ok m1)
    (h3 : m1.validate_target_parameter_group = .ok m1)
    (h4 : m1.validate_deletion_protection = .ok m1)
    (h5 : m1.validate_backup_retention_period = .ok m1)
    (h6 : m1.validate_version_upgrade = .ok m1)
    (hdb : m1.db_instance = some db)
    (heng : db.Engine = "postgres")
    (htv : m1.get_target_engine_version = .ok tv)
    (hut : m1.valid_upgrade_targets.lookup tv = some ut)
    (hmaj : ut.IsMajorVersionUpgrade = false) :
    ∀ e vv, mkModel m0 ≠ .error (.unsupportedEngineVersion e vv) := by
  intro e vv
  unfold mkModel
  rw [h1, exceptOkBind, h2, exceptOkBind, h3, exceptOkBind, h4, exceptOkBind,
    h5, exceptOkBind, h6, exceptOkBind]
  unfold BlueGreenDeploymentModel.validate_supported_engine_version
  simp [htv, hut, hdb, heng, hmaj, bind, Except.bind,
    validate_source_pg_status_ne_unsupported m1 e vv]

theorem non_major_upgrade_skips_postgres_version_check_witness :
    mkModel exModelPostgresMinor
      ≠ .error (.unsupportedEngineVersion "postgres" "10.5") :=
  non_major_upgrade_skips_postgres_version_check exModelPostgresMinor
    exModelPostgresMinor { exInstancePostgres with EngineVersion := "10.5" }
    "10.6" { EngineVersion := "10.6", IsMajorVersionUpgrade := false }
    rfl rfl rfl rfl rfl rfl rfl rfl rfl rfl rfl "postgres" "10.5"
